import Mathlib

/-!
Verification of the lighting core of `linux_thermaltake_riing`
(`daemon/lighting_manager/__init__.py`): the effect state machines
(Static, Alternating, RGBSpectrum, SpinningRGBSpectrum, Temperature),
the controller that turns effect output into brightness-scaled frames,
and the manager owning the device list and the polling-loop body.

The hue function `compass_to_rgb` lives in
`daemon.lighting_manager.utils.colours` and is external to the core
(the spec treats it as a pure collaborator), so every definition that
needs it is parameterised by `hueFn : ℚ → Triple`.

Python `int`/`float` arithmetic in `_brightness_processor`
(`int(i/100*self.brightness_level)`) is embedded exactly: `roundFr`
rounds an exact fraction to the nearest IEEE-754 binary64 value
(ties to even), so `pyScale` reproduces CPython's result bit for bit
on the ranges that occur here (no overflow, no subnormals).
-/

namespace ThermaltakeRgb

/-- An RGB channel triple as produced by the effects (channels are the
Python ints handed around by the code). -/
abbrev Triple := ℕ × ℕ × ℕ

/-- The Python exceptions the embedded code can raise.  `typeError` is
CPython's `TypeError: 'NoneType' object is not subscriptable`,
`indexError` a list index out of range, `keyError` a missing dict key,
`attributeError` an attribute access on `None`. -/
inductive PyErr where
  | typeError
  | indexError
  | keyError
  | attributeError
deriving DecidableEq

/-- Decidable equality for `Except` results, so concrete runs of the
embedded code can be checked by `decide`. -/
instance {ε α : Type} [DecidableEq ε] [DecidableEq α] : DecidableEq (Except ε α) := by
  intro a b
  cases a <;> cases b
  case error.error x y =>
    exact if h : x = y then .isTrue (by rw [h]) else .isFalse (by simpa using h)
  case ok.ok x y =>
    exact if h : x = y then .isTrue (by rw [h]) else .isFalse (by simpa using h)
  case error.ok x y => exact .isFalse (by simp)
  case ok.error x y => exact .isFalse (by simp)

/-! ## Exact model of CPython float arithmetic (IEEE-754 binary64)

The only float arithmetic a claim depends on is
`int(i/100*self.brightness_level)` in `_brightness_processor`.  It is
modelled exactly: both the division and the multiplication are correctly
rounded IEEE-754 binary64 operations (round to nearest, ties to even),
and `int()` truncates toward zero.  The model works on exact dyadic
numbers represented by natural-number mantissa/exponent pairs, so every
value it produces is the mathematically exact CPython result for the
ranges occurring here (no overflow, no subnormals). -/

/-- Floor of log2 of a positive natural, by structural recursion on a
fuel bound (`fuel` at least the bit length of `n`). -/
def log2Fuel : ℕ → ℕ → ℕ
  | _, 0 => 0
  | n, fuel + 1 => if n < 2 then 0 else log2Fuel (n / 2) fuel + 1

/-- Round the positive fraction `n / d` (`n, d > 0`, `n / d ≥ 2 ^ -64`)
to the nearest IEEE-754 binary64 value, ties to even.  The result is
the pair `(m, e52)` denoting `m * 2 ^ e52`: first the binary exponent
`e` with `2 ^ e ≤ n / d < 2 ^ (e + 1)` is located, then the value is
scaled into `[2 ^ 52, 2 ^ 53)` and the mantissa rounded. -/
def roundFr (n d : ℕ) : ℕ × ℤ :=
  let k := log2Fuel (n * 2 ^ 64 / d) 200
  let s : ℕ := 116 - k
  let N := n * 2 ^ s
  let m0 := N / d
  let r2 := 2 * (N % d)
  let m :=
    if d < r2 then m0 + 1
    else if r2 < d then m0
    else if m0 % 2 = 0 then m0 else m0 + 1
  (m, (k : ℤ) - 116)

/-- CPython's `int(i/100*b)` for a channel value `i : ℕ` and a
nonnegative brightness `b : ℕ`: round `i / 100` to binary64, multiply
by `b` (exact in the integers) and round again, then truncate. -/
def pyScaleNat (i b : ℕ) : ℕ :=
  if i = 0 ∨ b = 0 then 0
  else
    let p1 := roundFr i 100
    let n2 := p1.1 * b
    let p2 :=
      if 0 ≤ p1.2 then roundFr (n2 * 2 ^ p1.2.toNat) 1
      else roundFr n2 (2 ^ (-p1.2).toNat)
    if 0 ≤ p2.2 then p2.1 * 2 ^ p2.2.toNat else p2.1 / 2 ^ (-p2.2).toNat

/-- CPython's `int(i/100*b)` for any integer brightness `b`: float
rounding and `int()` truncation are both symmetric about zero. -/
def pyScale (i : ℕ) (b : ℤ) : ℤ :=
  if b < 0 then -(pyScaleNat i b.natAbs : ℤ) else (pyScaleNat i b.natAbs : ℤ)

/-! ## The effect state machines -/

/-- The five effect variants with exactly the mutable state the Python
classes carry: `static` its fixed `(r, g, b)`; `alternating` the even
and odd `(r, g, b)` matrices plus the parity flag (initially true);
`rgbSpectrum` its per-device call counter `num_iters`; the spinning
variant additionally the per-round `rotation`; `temperature` the sensor
name, last temperature, last angle, and the three thresholds. -/
inductive Effect where
  | static (r g b : ℕ)
  | alternating (even_rgb odd_rgb : Triple) (odd : Bool)
  | rgbSpectrum (num_iters : ℕ)
  | spinningRgbSpectrum (num_iters rotation : ℕ)
  | temperature (sensor_name : String) (cur_temp angle : ℚ) (cold target hot : ℚ)
deriving DecidableEq

/-- Return a stored `(r, g, b)` with the first two channels swapped, as
`StaticLightingEffect.next` and `AlternatingLightingEffect.next` do
(`return self.g, self.r, self.b`). -/
def swapFirstTwo (t : Triple) : Triple := (t.2.1, t.1, t.2.2)

/-- The table `[compass_to_rgb(ang) for ang in range(360)]` built by
`RGBSpectrumLightingEffect.__init__`. -/
def compass_to_rgb_map (hueFn : ℚ → Triple) : List Triple :=
  (List.range 360).map (fun a : ℕ => hueFn (a : ℚ))

/-- `begin_dev`: `RGBSpectrumLightingEffect.begin_dev` resets
`num_iters` to 0 (the spinning subclass inherits it); the base class
method is a no-op for the other variants. -/
def Effect.begin_dev : Effect → Effect
  | .rgbSpectrum _ => .rgbSpectrum 0
  | .spinningRgbSpectrum _ r => .spinningRgbSpectrum 0 r
  | e => e

/-- One `begin_all` rotation update of `SpinningRGBSpectrumLightingEffect`:
`if self.rotation > 11: self.rotation = 0` followed by
`self.rotation += 1`. -/
def spinStep (r : ℕ) : ℕ := (if 11 < r then 0 else r) + 1

/-- The angle assignment of `TemperatureLightingEffect.begin_all` after
the sensor read, with the instance constants `cold_angle = 240`,
`target_angle = 120`, `hot_angle = 0` inlined (they are fixed by
`__init__`); `prev` is the angle kept when no branch fires.  The
interpolation arithmetic is Python float; it is embedded over ℚ here
because the claims about it concern values where the float computation
is exact. -/
def temperature_angle (cold target hot : ℚ) (prev cur : ℚ) : ℚ :=
  if cur ≤ cold then 240
  else if cur < target then (240 - 120) / (target - cold) * (target - cur)
  else if cur = target then 120
  else if hot < cur then 0
  else if target < cur then 120 - (120 - 0) / (hot - target) * (cur - target)
  else prev

/-- `begin_all`: the spinning variant advances its rotation; the
temperature variant evaluates
`sensors_temperatures().get(self.sensor_name)[0].current` — `get`
returning `None` makes the `[0]` subscript raise `TypeError`, an empty
reading list raises `IndexError`, otherwise the first reading's current
value is stored and the angle recomputed.  `sensors` maps a sensor name
to the list of its readings' current values. -/
def Effect.begin_all (sensors : String → Option (List ℚ)) :
    Effect → Except PyErr Effect
  | .spinningRgbSpectrum k r => .ok (.spinningRgbSpectrum k (spinStep r))
  | .temperature name _cur ang cold target hot =>
      match sensors name with
      | none => .error .typeError
      | some [] => .error .indexError
      | some (t0 :: _) =>
          .ok (.temperature name t0 (temperature_angle cold target hot ang t0)
            cold target hot)
  | e => .ok e

/-- `next()` of each variant: static returns `(g, r, b)`; alternating
toggles its parity flag and returns the corresponding matrix with the
same swap; rgbSpectrum increments `num_iters` and indexes the table at
`int(360/12*self.num_iters)` (an out-of-range index raises
`IndexError`); the spinning variant calls the hue function directly at
`360/12*self.num_iters + 360/12*self.rotation`; temperature calls it
at the stored angle. -/
def Effect.next (hueFn : ℚ → Triple) : Effect → Except PyErr (Triple × Effect)
  | .static r g b => .ok ((g, r, b), .static r g b)
  | .alternating ev od odd =>
      if odd then .ok (swapFirstTwo od, .alternating ev od false)
      else .ok (swapFirstTwo ev, .alternating ev od true)
  | .rgbSpectrum k =>
      match (compass_to_rgb_map hueFn)[360 / 12 * (k + 1)]? with
      | some c => .ok (c, .rgbSpectrum (k + 1))
      | none => .error .indexError
  | .spinningRgbSpectrum k r =>
      .ok (hueFn ((360 / 12 * (k + 1) + 360 / 12 * r : ℕ) : ℚ),
        .spinningRgbSpectrum (k + 1) r)
  | .temperature name cur ang cold target hot =>
      .ok (hueFn ang, .temperature name cur ang cold target hot)

/-! ## Controller -/

/-- `LightingController`: owns one effect, a brightness level
(default 100) and a refresh interval in milliseconds (default 100). -/
structure LightingController where
  lighting_effect : Effect
  brightness_level : ℤ
  update_msec : ℤ
deriving DecidableEq

/-- `LightingController.__init__`: defaults `brightness_level = 100`,
`update_msec = 100`. -/
def mkLightingController (e : Effect) : LightingController := ⟨e, 100, 100⟩

/-- `_brightness_processor`: `[0, 0, 0]` when the brightness level is 0,
otherwise `[int(i/100*self.brightness_level) for i in rgb]`. -/
def brightness_processor (b : ℤ) (rgb : Triple) : List ℤ :=
  if b = 0 then [0, 0, 0]
  else [pyScale rgb.1 b, pyScale rgb.2.1 b, pyScale rgb.2.2 b]

/-- `n` successive `next()` calls on an effect, collecting the returned
triples; the first raised exception propagates. -/
def runNexts (hueFn : ℚ → Triple) : Effect → ℕ → Except PyErr (List Triple × Effect)
  | e, 0 => .ok ([], e)
  | e, n + 1 =>
      match e.next hueFn with
      | .error err => .error err
      | .ok (c, e1) =>
          match runNexts hueFn e1 n with
          | .error err => .error err
          | .ok (cs, e2) => .ok (c :: cs, e2)

/-- `LightingController.main(device)`: one `begin_dev()`, then one
`next()` per LED with each triple run through `_brightness_processor`
and the results concatenated in order; returns the data array together
with the current `update_msec`, plus the controller as left by the
effect-state mutation. -/
def LightingController.main (hueFn : ℚ → Triple) (c : LightingController)
    (num_leds : ℕ) : Except PyErr ((List ℤ × ℤ) × LightingController) :=
  match runNexts hueFn c.lighting_effect.begin_dev num_leds with
  | .error err => .error err
  | .ok (ts, e1) =>
      .ok (((ts.map (brightness_processor c.brightness_level)).flatten, c.update_msec),
        { c with lighting_effect := e1 })

/-! ## Manager -/

/-- `LightingManager`: an optional active controller (the constructor
default is `None`) and the attached devices, each represented by its
LED count. -/
structure LightingManager where
  _controller : Option LightingController
  _devices : List ℕ
deriving DecidableEq

/-- `attach_device`: append, no de-duplication. -/
def LightingManager.attach_device (m : LightingManager) (d : ℕ) : LightingManager :=
  { m with _devices := m._devices ++ [d] }

/-- The clamp in `set_brightness`: negative inputs become 0, inputs
above 300 become 300. -/
def clampBrightness (b : ℤ) : ℤ := if b < 0 then 0 else if 300 < b then 300 else b

/-- `LightingManager.set_brightness`: clamps into `[0, 300]` and writes
`self._controller.brightness_level`; with no controller the attribute
assignment on `None` raises `AttributeError`. -/
def LightingManager.set_brightness (m : LightingManager) (b : ℤ) :
    Except PyErr LightingManager :=
  match m._controller with
  | none => .error .attributeError
  | some c =>
      .ok { m with _controller := some { c with brightness_level := clampBrightness b } }

/-- `LightingManager.set_light_update_msec`: only when the argument is
positive does it touch `self._controller.update_msec` (raising
`AttributeError` when there is no controller); otherwise the call is a
no-op. -/
def LightingManager.set_light_update_msec (m : LightingManager) (s : ℤ) :
    Except PyErr LightingManager :=
  if 0 < s then
    match m._controller with
    | none => .error .attributeError
    | some c => .ok { m with _controller := some { c with update_msec := s } }
  else .ok m

/-- The per-device half of one `_main_loop` iteration: for each device
in order call `controller.main` and hand the data to the device sink;
returns the frames as handed over, the final controller state, and the
`next_poll_msec` left by the last device (`msec` is its value entering
the round). -/
def driveDevices (hueFn : ℚ → Triple) (c : LightingController) (msec : ℤ) :
    List ℕ → Except PyErr (List (List ℤ) × LightingController × ℤ)
  | [] => .ok ([], c, msec)
  | d :: ds =>
      match c.main hueFn d with
      | .error err => .error err
      | .ok (dm, c1) =>
          match driveDevices hueFn c1 dm.2 ds with
          | .error err => .error err
          | .ok (frames, c2, mlast) => .ok (dm.1 :: frames, c2, mlast)

/-- One iteration of `LightingManager._main_loop`:
`self._controller.lighting_effect.begin_all()` (an `AttributeError` on
`None` when no controller is set), then every attached device is driven
and its frame handed to `set_lighting`.  `next_poll_msec` starts at 1
as in the source. -/
def LightingManager.loopRound (hueFn : ℚ → Triple)
    (sensors : String → Option (List ℚ)) (m : LightingManager) :
    Except PyErr (List (List ℤ) × LightingManager × ℤ) :=
  match m._controller with
  | none => .error .attributeError
  | some c =>
      match c.lighting_effect.begin_all sensors with
      | .error err => .error err
      | .ok e1 =>
          match driveDevices hueFn { c with lighting_effect := e1 } 1 m._devices with
          | .error err => .error err
          | .ok (frames, c2, mlast) =>
              .ok (frames, { m with _controller := some c2 }, mlast)

/-- A caller-context configuration call on the manager. -/
inductive SetterCall where
  | brightness (b : ℤ)
  | updateMsec (s : ℤ)
deriving DecidableEq

/-- Dispatch one setter call. -/
def applySetter (m : LightingManager) : SetterCall → Except PyErr LightingManager
  | .brightness b => m.set_brightness b
  | .updateMsec s => m.set_light_update_msec s

/-- Run a sequence of setter calls, stopping at the first exception. -/
def runSetters (m : LightingManager) : List SetterCall → Except PyErr LightingManager
  | [] => .ok m
  | call :: rest =>
      match applySetter m call with
      | .error err => .error err
      | .ok m1 => runSetters m1 rest

/-! ## Factory -/

/-- The kind-specific constructor parameters the factory forwards
(`*args` / `**kwargs`), bundled as one record; the dispatch in
`lighting_controller_factory` never inspects them. -/
structure FactoryParams where
  r : ℕ := 0
  g : ℕ := 0
  b : ℕ := 0
  even_rgb_matrix : Triple := (0, 0, 0)
  odd_rgb_matrix : Triple := (0, 0, 0)
  sensor_name : String := ""
  hot : ℚ := 60
  target : ℚ := 30
  cold : ℚ := 20
deriving DecidableEq

/-- The `if/elif` chain of `lighting_controller_factory` constructing
the effect, `none` when no branch matches (`effect` stays `None`).
Initial mutable state follows each `__init__`: the alternating parity
flag starts true, counters and rotation start 0, the temperature
effect starts with `cur_temp = 0` and `angle = 0`. -/
def makeEffect (t : String) (p : FactoryParams) : Option Effect :=
  if t = "static" then some (.static p.r p.g p.b)
  else if t = "alternating" then some (.alternating p.even_rgb_matrix p.odd_rgb_matrix true)
  else if t = "rgb_spectrum" then some (.rgbSpectrum 0)
  else if t = "spinning_rgb_spectrum" then some (.spinningRgbSpectrum 0 0)
  else if t = "temperature" then
    some (.temperature p.sensor_name 0 0 p.cold p.target p.hot)
  else none

/-- `lighting_controller_factory` on the positional path (`args`
nonempty, `_type = args.pop(0)`): a `LightingController` around the
constructed effect, or no result when the identifier is unrecognized
(the function falls off the end and returns `None`). -/
def lighting_controller_factory (t : String) (p : FactoryParams) :
    Option LightingController :=
  (makeEffect t p).map mkLightingController

/-- `lighting_controller_factory` on the keyword path (`not args`):
`kwargs.pop('type')` raises `KeyError` when the key is absent,
otherwise dispatch proceeds on the popped value. -/
def lighting_controller_factory_kwargs (kwargs : List (String × String))
    (p : FactoryParams) : Except PyErr (Option LightingController) :=
  match kwargs.lookup "type" with
  | none => .error .keyError
  | some t => .ok (lighting_controller_factory t p)

/-! ## Interleaved operation traces and expected output shapes -/

/-- One call at the effect interface, for stating how outputs relate to
arbitrary interleavings of device/round boundaries. -/
inductive EffectOp where
  | beginDev
  | beginRound
  | nextCall
deriving DecidableEq

/-- Run a list of effect-interface calls, collecting the triples the
`next()` calls return. -/
def runOps (hueFn : ℚ → Triple) (sensors : String → Option (List ℚ)) :
    Effect → List EffectOp → Except PyErr (List Triple × Effect)
  | e, [] => .ok ([], e)
  | e, .beginDev :: rest => runOps hueFn sensors e.begin_dev rest
  | e, .beginRound :: rest =>
      match e.begin_all sensors with
      | .error err => .error err
      | .ok e1 => runOps hueFn sensors e1 rest
  | e, .nextCall :: rest =>
      match e.next hueFn with
      | .error err => .error err
      | .ok (c, e1) =>
          match runOps hueFn sensors e1 rest with
          | .error err => .error err
          | .ok (cs, e2) => .ok (c :: cs, e2)

/-- The number of `next()` calls in a trace. -/
def countNexts : List EffectOp → ℕ
  | [] => 0
  | .nextCall :: rest => countNexts rest + 1
  | _ :: rest => countNexts rest

/-- The alternating effect's expected output stream from a given parity:
the odd matrix (channels swapped) when the flag is set, then even, then
odd, and so on. -/
def altPattern (ev od : Triple) : Bool → ℕ → List Triple
  | _, 0 => []
  | par, n + 1 =>
      (if par then swapFirstTwo od else swapFirstTwo ev) :: altPattern ev od (!par) n

/-- The parity flag after `n` further `next()` calls. -/
def parityAfter (par : Bool) (n : ℕ) : Bool := if n % 2 = 0 then par else !par

/-- The RGBSpectrum effect's expected output stream: `n` table entries
starting after counter value `k`, the j-th drawn at angle index
`30 * (k + j)`. -/
def expectedRgb (hueFn : ℚ → Triple) : ℕ → ℕ → List Triple
  | _, 0 => []
  | k, n + 1 => hueFn ((30 * (k + 1) : ℕ) : ℚ) :: expectedRgb hueFn (k + 1) n

/-- A concrete hue function for evaluating witnesses (the real
`compass_to_rgb` is external to the core). -/
def hue0 : ℚ → Triple := fun _ => (0, 0, 0)

/-- A sensor collaborator with no reading for any name. -/
def sensorsNone : String → Option (List ℚ) := fun _ => none

/-- A sensor collaborator whose every sensor reads 25 °C. -/
def sensors25 : String → Option (List ℚ) := fun _ => some [25]

/-- The temperature effect as `TemperatureLightingEffect('cpu')`
constructs it: thresholds cold 20, target 30, hot 60, state zeroed. -/
def tempE : Effect := .temperature "cpu" 0 0 20 30 60

/-- A controller around `StaticLightingEffect(29, 29, 29)` at the
default brightness 100 and interval 100. -/
def ctrl29 : LightingController := mkLightingController (.static 29 29 29)

/-- A controller around `StaticLightingEffect(100, 100, 100)` with the
brightness level set to 300 (reachable through `set_brightness(300)`). -/
def overC : LightingController := ⟨.static 100 100 100, 300, 100⟩

/-- A manager holding `overC` and one attached single-LED device. -/
def mgr300 : LightingManager := ⟨some overC, [1]⟩

/-- The invariant claim C7 asserts of the manager's controller state:
brightness within `[0, 300]` and a positive refresh interval. -/
def ctrlInv (m : LightingManager) : Prop :=
  ∀ c, m._controller = some c →
    0 ≤ c.brightness_level ∧ c.brightness_level ≤ 300 ∧ 0 < c.update_msec

/-! ## Helper lemmas -/

/-- Indexing the precomputed table inside its bounds yields the hue of
the index. -/
theorem compass_map_getElem_lt (hueFn : ℚ → Triple) (i : ℕ) (h : i < 360) :
    (compass_to_rgb_map hueFn)[i]? = some (hueFn (i : ℚ)) := by
  rw [compass_to_rgb_map, List.getElem?_map, List.getElem?_range h]
  rfl

/-- Indexing the precomputed table at 360 or beyond yields nothing
(Python raises `IndexError`). -/
theorem compass_map_getElem_ge (hueFn : ℚ → Triple) (i : ℕ) (h : 360 ≤ i) :
    (compass_to_rgb_map hueFn)[i]? = none := by
  have hr : (List.range 360)[i]? = none := by
    apply List.getElem?_eq_none_iff.mpr
    simpa using h
  rw [compass_to_rgb_map, List.getElem?_map, hr]
  rfl

/-- `runNexts` calls `next()` exactly `n` times: a successful run of
length `n` collects `n` triples. -/
theorem runNexts_length (hueFn : ℚ → Triple) :
    ∀ (n : ℕ) (e : Effect) (ts : List Triple) (e1 : Effect),
      runNexts hueFn e n = .ok (ts, e1) → ts.length = n := by
  intro n
  induction n with
  | zero =>
      intro e ts e1 h
      simp only [runNexts] at h
      obtain ⟨h1, h2⟩ : ([] : List Triple) = ts ∧ e = e1 := by
        constructor <;> [exact congrArg (·.1) (Except.ok.inj h);
          exact congrArg (·.2) (Except.ok.inj h)]
      simp [← h1]
  | succ n ih =>
      intro e ts e1 h
      simp only [runNexts] at h
      cases hnext : e.next hueFn with
      | error err => rw [hnext] at h; exact absurd h (by simp)
      | ok val =>
          obtain ⟨c, e2⟩ := val
          rw [hnext] at h
          dsimp only at h
          cases hrec : runNexts hueFn e2 n with
          | error err => rw [hrec] at h; exact absurd h (by simp)
          | ok val2 =>
              obtain ⟨cs, e3⟩ := val2
              rw [hrec] at h
              dsimp only at h
              obtain ⟨hts, _⟩ : c :: cs = ts ∧ e3 = e1 := by
                constructor <;> [exact congrArg (·.1) (Except.ok.inj h);
                  exact congrArg (·.2) (Except.ok.inj h)]
              rw [← hts]
              simp [ih e2 cs e3 hrec]

/-- `_brightness_processor` always returns three channel values. -/
theorem brightness_processor_length (b : ℤ) (rgb : Triple) :
    (brightness_processor b rgb).length = 3 := by
  unfold brightness_processor
  split <;> rfl

/-- At brightness level 0, `_brightness_processor` is constantly
`[0, 0, 0]`. -/
theorem brightness_processor_zero :
    brightness_processor 0 = fun _ => ([0, 0, 0] : List ℤ) := by
  funext rgb
  simp [brightness_processor]

/-- The concatenated output of `_brightness_processor` over `n` triples
has `3 * n` entries. -/
theorem flatten_brightness_length (b : ℤ) :
    ∀ ts : List Triple, ((ts.map (brightness_processor b)).flatten).length = 3 * ts.length := by
  intro ts
  induction ts with
  | nil => simp
  | cons t rest ih =>
      simp only [List.map_cons, List.flatten_cons, List.length_append, ih,
        brightness_processor_length, List.length_cons]
      omega

/-! ## Claim theorems -/

/-- Claim C1: the spec says that for `c < cur < t` `begin_round` sets
the angle to the linear interpolation between the cold angle 240 and
the target angle 120 (the midpoint of `[c, t]` giving 180).  The code
computes `(cold_angle - target_angle) / (target - cold) * (target -
cur)` without adding the 120 base (the symmetric hot-side branch does
add it), so with the default thresholds cold 20/target 30 a reading of
25 yields angle 60, not the 180 the spec requires; the branch is even
discontinuous at both of its ends (240 at `cur = c` but `→ 120` just
above it, `→ 0` just below `cur = t` but 120 at it). -/
theorem claim1_temperature_midpoint_bug :
    temperature_angle 20 30 60 0 25 = 60 ∧
    Effect.begin_all sensors25 tempE = .ok (.temperature "cpu" 25 60 20 30 60) ∧
    (60 : ℚ) ≠ 180 := by
  refine ⟨by norm_num [temperature_angle], ?_, by norm_num⟩
  simp [Effect.begin_all, sensors25, tempE]
  norm_num [temperature_angle]

/-- Claim C9 (amended): when the sensor collaborator has no reading for
the configured name, `TemperatureLightingEffect.begin_all` subscripts
the `None` returned by `dict.get` and raises `TypeError` — the
null-dereference propagates and the round crashes; no explicit
sensor-not-found error is raised and no recovery keeps the last
angle. -/
theorem claim9_sensor_none_null_deref (sensors : String → Option (List ℚ))
    (name : String) (cur ang cold target hot : ℚ)
    (h : sensors name = none) :
    Effect.begin_all sensors (.temperature name cur ang cold target hot)
      = .error .typeError := by
  simp [Effect.begin_all, h]

/-- Claim C9 witness: the general statement applied to the all-`none`
sensor collaborator and the default temperature effect. -/
theorem claim9_sensor_none_null_deref_witness :
    Effect.begin_all sensorsNone tempE = .error .typeError :=
  claim9_sensor_none_null_deref sensorsNone "cpu" 0 0 20 30 60 rfl

/-- Claim C9 counterexample: with no reading available, `begin_all`
does not surface a recoverable condition that keeps the state (it is
not `.ok tempE`); it propagates the `TypeError` of subscripting
`None`. -/
theorem claim9_counterexample :
    Effect.begin_all sensorsNone tempE = .error .typeError ∧
    Effect.begin_all sensorsNone tempE ≠ .ok tempE := by
  constructor
  · decide
  · decide

/-- Claim C4 counterexample: with brightness 300 and raw channels
`(100, 100, 100)` on a one-LED device, the frame handed to
`set_lighting` is `[300, 300, 300]` — not every channel lies in
`[0, 255]`. -/
theorem claim4_counterexample :
    LightingManager.loopRound hue0 sensorsNone mgr300
      = .ok ([[300, 300, 300]], mgr300, 100) ∧
    ¬(∀ x ∈ [(300 : ℤ), 300, 300], x ≤ 255) := by
  constructor
  · decide
  · decide

/-- Claim C4 (amended): no clamp to `[0, 255]` is applied anywhere
between the brightness arithmetic and the device sink: the scaled value
`int(100/100*300) = 300` is delivered to `set_lighting` as is, not
255. -/
theorem claim4_no_upper_clamp :
    pyScale 100 300 = 300 ∧
    LightingManager.loopRound hue0 sensorsNone mgr300
      = .ok ([[300, 300, 300]], mgr300, 100) ∧
    (300 : ℤ) ≠ 255 := by
  refine ⟨by decide, by decide, by decide⟩

/-- Claim C3 counterexample: brightness 100 does not return the raw
channel unchanged and the scaling is not `floor(channel*b/100)`: for a
static effect with channels 29 and the default brightness 100, one
`build_frame` on a one-LED device returns `[28, 28, 28]`, while
`floor(29*100/100) = 29`. -/
theorem claim3_counterexample :
    LightingController.main hue0 ctrl29 1 = .ok (([28, 28, 28], 100), ctrl29) ∧
    (28 : ℤ) ≠ 29 * 100 / 100 := by
  constructor
  · decide
  · decide

/-- Claim C3 (amended): `build_frame` calls `begin_dev` once, `next()`
exactly `n` times, and returns the concatenation of the `3 * n`
processed channel values together with the current refresh interval;
each channel is CPython's `int(channel/100*b)` (float arithmetic, which
for some inputs differs from `floor(channel*b/100)`), and at brightness
0 every output channel is 0 regardless of the effect's output. -/
theorem claim3_build_frame (hueFn : ℚ → Triple) (c : LightingController)
    (n : ℕ) (ts : List Triple) (e1 : Effect)
    (h : runNexts hueFn c.lighting_effect.begin_dev n = .ok (ts, e1)) :
    c.main hueFn n
      = .ok (((ts.map (brightness_processor c.brightness_level)).flatten,
          c.update_msec), { c with lighting_effect := e1 }) ∧
    ts.length = n ∧
    ((ts.map (brightness_processor c.brightness_level)).flatten).length = 3 * n ∧
    (c.brightness_level = 0 →
      ∀ x ∈ (ts.map (brightness_processor c.brightness_level)).flatten, x = 0) := by
  refine ⟨?_, ?_, ?_, ?_⟩
  · simp only [LightingController.main, h]
  · exact runNexts_length hueFn n _ ts e1 h
  · rw [flatten_brightness_length, runNexts_length hueFn n _ ts e1 h]
  · intro hb x hx
    rw [hb, brightness_processor_zero] at hx
    rcases List.mem_flatten.mp hx with ⟨l, hl, hxl⟩
    rcases List.mem_map.mp hl with ⟨t, _, rfl⟩
    simpa using hxl

/-- Claim C3 witness: the general statement applied to a static-effect
controller and a two-LED device; `runNexts` evaluates to the two raw
triples and `build_frame` to their processed concatenation. -/
theorem claim3_build_frame_witness :
    ctrl29.main hue0 2
      = .ok ((([(29, 29, 29), (29, 29, 29)].map
          (brightness_processor ctrl29.brightness_level)).flatten,
          ctrl29.update_msec), { ctrl29 with lighting_effect := .static 29 29 29 }) ∧
    [(29, 29, 29), (29, 29, 29)].length = 2 ∧
    (([(29, 29, 29), (29, 29, 29)].map
        (brightness_processor ctrl29.brightness_level)).flatten).length = 3 * 2 ∧
    (ctrl29.brightness_level = 0 →
      ∀ x ∈ ([(29, 29, 29), (29, 29, 29)].map
        (brightness_processor ctrl29.brightness_level)).flatten, x = 0) :=
  claim3_build_frame hue0 ctrl29 2 [(29, 29, 29), (29, 29, 29)] (.static 29 29 29)
    (by decide)

/-- A successful run of the RGBSpectrum effect: starting from counter
`k`, as long as every index `30 * (k + j)` stays below 360 the j-th
call returns the table entry at that index. -/
theorem runNexts_rgb_ok (hueFn : ℚ → Triple) :
    ∀ (n k : ℕ), k + n ≤ 11 →
      runNexts hueFn (.rgbSpectrum k) n
        = .ok (expectedRgb hueFn k n, .rgbSpectrum (k + n)) := by
  intro n
  induction n with
  | zero => intro k h; simp [runNexts, expectedRgb]
  | succ n ih =>
      intro k h
      have hidx : 360 / 12 * (k + 1) < 360 := by omega
      simp only [runNexts, Effect.next, compass_map_getElem_lt hueFn _ hidx]
      rw [ih (k + 1) (by omega)]
      have e1 : (360 : ℕ) / 12 * (k + 1) = 30 * (k + 1) := by norm_num
      have e2 : k + 1 + n = k + (n + 1) := by omega
      rw [e1, e2]
      rfl

/-- A run of the RGBSpectrum effect that reaches counter value 12
raises `IndexError`: the index `int(360/12*12) = 360` is out of range
for the 360-entry table. -/
theorem runNexts_rgb_err (hueFn : ℚ → Triple) :
    ∀ (n k : ℕ), k + n = 12 → 0 < n →
      runNexts hueFn (.rgbSpectrum k) n = .error .indexError := by
  intro n
  induction n with
  | zero => intro k h hn; omega
  | succ n ih =>
      intro k h _
      rcases Nat.eq_zero_or_pos n with rfl | hpos
      · have hk : k = 11 := by omega
        subst hk
        have hidx : (360 : ℕ) ≤ 360 / 12 * (11 + 1) := by omega
        simp only [runNexts, Effect.next, compass_map_getElem_ge hueFn _ hidx]
      · have hidx : 360 / 12 * (k + 1) < 360 := by omega
        simp only [runNexts, Effect.next, compass_map_getElem_lt hueFn _ hidx]
        rw [ih (k + 1) (by omega) hpos]

/-- Claim C2 (amended): after `begin_dev` resets the counter, the k-th
`next()` call of a device frame returns the table entry at index
`int(360/12*k) = 30*k` for the first eleven calls, but the twelfth call
computes index `30*12 = 360`, out of range for the 360-entry table, so
a device with 12 or more LEDs raises `IndexError` on its twelfth LED —
the bound is violated already at `led_count = 12`, not only above it,
and no mod-360 wrap occurs. -/
theorem claim2_rgb_spectrum_bounds (hueFn : ℚ → Triple) :
    (∀ (k n : ℕ), n ≤ 11 →
        runNexts hueFn (Effect.rgbSpectrum k).begin_dev n
          = .ok (expectedRgb hueFn 0 n, .rgbSpectrum n)) ∧
    (∀ k : ℕ, runNexts hueFn (Effect.rgbSpectrum k).begin_dev 12
        = .error .indexError) := by
  constructor
  · intro k n h
    have hrun := runNexts_rgb_ok hueFn n 0 (by omega)
    simpa [Effect.begin_dev] using hrun
  · intro k
    have hrun := runNexts_rgb_err hueFn 12 0 rfl (by omega)
    simpa [Effect.begin_dev] using hrun

/-- Claim C2 witness: eleven calls after a counter reset sample the
first eleven table entries; the twelfth raises `IndexError`. -/
theorem claim2_rgb_spectrum_bounds_witness :
    runNexts hue0 (Effect.rgbSpectrum 7).begin_dev 11
      = .ok (expectedRgb hue0 0 11, .rgbSpectrum 11) ∧
    runNexts hue0 (Effect.rgbSpectrum 7).begin_dev 12 = .error .indexError :=
  ⟨(claim2_rgb_spectrum_bounds hue0).1 7 11 (by norm_num),
   (claim2_rgb_spectrum_bounds hue0).2 7⟩

set_option maxRecDepth 100000 in
/-- Claim C2 counterexample: on a device with `led_count = 12` the
twelve angles are not sampled — the frame aborts with a bounds error,
because the twelfth index is `360/12*12 = 360`, which does not lie in
`[0, 359]`. -/
theorem claim2_counterexample :
    runNexts hue0 (Effect.rgbSpectrum 0).begin_dev 12 = .error .indexError ∧
    360 / 12 * 12 = 360 ∧ ¬(360 / 12 * 12 ≤ 359) := by
  refine ⟨by decide, by norm_num, by norm_num⟩

/-- Flipping the parity once more commutes with counting one more
`next()` call. -/
theorem parityAfter_succ (par : Bool) (n : ℕ) :
    parityAfter par (n + 1) = parityAfter (!par) n := by
  unfold parityAfter
  split_ifs <;> first | omega | simp

/-- The alternating effect's outputs under an arbitrary interleaved
trace, from an arbitrary parity: the `next()` outputs follow
`altPattern` and only their count matters, because `begin_dev` and
`begin_all` leave the state untouched. -/
theorem runOps_alternating (hueFn : ℚ → Triple)
    (sensors : String → Option (List ℚ)) (ev od : Triple) :
    ∀ (ops : List EffectOp) (par : Bool),
      runOps hueFn sensors (.alternating ev od par) ops
        = .ok (altPattern ev od par (countNexts ops),
            .alternating ev od (parityAfter par (countNexts ops))) := by
  intro ops
  induction ops with
  | nil => intro par; simp [runOps, countNexts, altPattern, parityAfter]
  | cons op rest ih =>
      intro par
      cases op with
      | beginDev => simpa [runOps, Effect.begin_dev, countNexts] using ih par
      | beginRound => simpa [runOps, Effect.begin_all, countNexts] using ih par
      | nextCall =>
          cases par with
          | true =>
              have hnext : Effect.next hueFn (.alternating ev od true)
                  = .ok (swapFirstTwo od, .alternating ev od false) := by
                simp [Effect.next]
              simp only [runOps]
              rw [hnext]
              dsimp only
              rw [ih false]
              dsimp only
              simp [altPattern, countNexts, parityAfter_succ]
          | false =>
              have hnext : Effect.next hueFn (.alternating ev od false)
                  = .ok (swapFirstTwo ev, .alternating ev od true) := by
                simp [Effect.next]
              simp only [runOps]
              rw [hnext]
              dsimp only
              rw [ih true]
              dsimp only
              simp [altPattern, countNexts, parityAfter_succ]

/-- Claim C5: from a freshly constructed alternating effect (parity
flag true), any interleaving of `begin_dev` and `begin_all` calls
between the `next()` calls leaves the output sequence odd, even, odd,
even, … (each triple with its first two channels swapped): the result
depends only on the number of `next()` calls in the trace, and the
parity flag is never reset at device or round boundaries. -/
theorem claim5_alternating_interleaving (hueFn : ℚ → Triple)
    (sensors : String → Option (List ℚ)) (ev od : Triple) (ops : List EffectOp) :
    runOps hueFn sensors (.alternating ev od true) ops
      = .ok (altPattern ev od true (countNexts ops),
          .alternating ev od (parityAfter true (countNexts ops))) :=
  runOps_alternating hueFn sensors ev od ops true

/-- Claim C6: from a fresh spinning effect (rotation 0), the rotation
observed after the (n+1)-th `begin_all` is `n % 12 + 1` — the cycle
1, 2, …, 12, 1, 2, …, never 0 after the first call, wrapping only once
the stored value exceeds 11; `begin_all` performs exactly the
`spinStep` update, and each `next()` increments the counter and returns
the hue function applied directly to `30*counter + 30*rotation`. -/
theorem claim6_spinning_rotation_cycle :
    (∀ n : ℕ, spinStep^[n + 1] 0 = n % 12 + 1) ∧
    (∀ (sensors : String → Option (List ℚ)) (k r : ℕ),
        Effect.begin_all sensors (.spinningRgbSpectrum k r)
          = .ok (.spinningRgbSpectrum k (spinStep r))) ∧
    (∀ (hueFn : ℚ → Triple) (k r : ℕ),
        Effect.next hueFn (.spinningRgbSpectrum k r)
          = .ok (hueFn ((30 * (k + 1) + 30 * r : ℕ) : ℚ),
              .spinningRgbSpectrum (k + 1) r)) := by
  refine ⟨?_, ?_, ?_⟩
  · intro n
    induction n with
    | zero => rfl
    | succ n ih =>
        rw [Function.iterate_succ_apply', ih]
        unfold spinStep
        split_ifs with h <;> omega
  · intro sensors k r
    rfl
  · intro hueFn k r
    have e1 : (360 : ℕ) / 12 * (k + 1) + 360 / 12 * r = 30 * (k + 1) + 30 * r := by
      norm_num
    simp only [Effect.next, e1]

/-- One setter call preserves the controller invariant. -/
theorem applySetter_preserves_inv (m m1 : LightingManager) (call : SetterCall)
    (hm : ctrlInv m) (h : applySetter m call = .ok m1) : ctrlInv m1 := by
  cases call with
  | brightness b =>
      simp only [applySetter, LightingManager.set_brightness] at h
      cases hc : m._controller with
      | none => rw [hc] at h; exact absurd h (by simp)
      | some c =>
          rw [hc] at h
          dsimp only at h
          have hmm := Except.ok.inj h
          intro c0 hc0
          rw [← hmm] at hc0
          simp only [Option.some.injEq] at hc0
          rw [← hc0]
          refine ⟨?_, ?_, (hm c hc).2.2⟩
          · dsimp only
            unfold clampBrightness
            split_ifs <;> omega
          · dsimp only
            unfold clampBrightness
            split_ifs <;> omega
  | updateMsec s =>
      simp only [applySetter, LightingManager.set_light_update_msec] at h
      split_ifs at h with hs
      · cases hc : m._controller with
        | none => rw [hc] at h; exact absurd h (by simp)
        | some c =>
            rw [hc] at h
            dsimp only at h
            have hmm := Except.ok.inj h
            intro c0 hc0
            rw [← hmm] at hc0
            simp only [Option.some.injEq] at hc0
            rw [← hc0]
            exact ⟨(hm c hc).1, (hm c hc).2.1, hs⟩
      · rw [← Except.ok.inj h]
        exact hm

/-- Any successful sequence of setter calls preserves the controller
invariant. -/
theorem runSetters_preserves_inv :
    ∀ (calls : List SetterCall) (m m1 : LightingManager),
      ctrlInv m → runSetters m calls = .ok m1 → ctrlInv m1 := by
  intro calls
  induction calls with
  | nil =>
      intro m m1 hm h
      simp only [runSetters] at h
      rw [← Except.ok.inj h]
      exact hm
  | cons call rest ih =>
      intro m m1 hm h
      simp only [runSetters] at h
      cases ha : applySetter m call with
      | error err => rw [ha] at h; exact absurd h (by simp)
      | ok m2 =>
          rw [ha] at h
          dsimp only at h
          exact ih m2 m1 (applySetter_preserves_inv m m2 call hm ha) h

/-- Claim C7: starting from the defaults (brightness 100, refresh
interval 100 ms), any sequence of set-brightness / set-refresh-interval
calls keeps brightness in `[0, 300]` and the interval positive; the
brightness setter clamps (−5 becomes 0, 1000 becomes 300) and never
rejects, the interval setter stores positive arguments (50 is stored)
and silently ignores non-positive ones (0 leaves 100 in place). -/
theorem claim7_setter_invariant :
    (∀ (e : Effect) (devs : List ℕ) (calls : List SetterCall) (m1 : LightingManager),
        runSetters ⟨some (mkLightingController e), devs⟩ calls = .ok m1 → ctrlInv m1) ∧
    (∀ e : Effect,
        (⟨some (mkLightingController e), []⟩ : LightingManager).set_brightness (-5)
          = .ok ⟨some ⟨e, 0, 100⟩, []⟩) ∧
    (∀ e : Effect,
        (⟨some (mkLightingController e), []⟩ : LightingManager).set_brightness 1000
          = .ok ⟨some ⟨e, 300, 100⟩, []⟩) ∧
    (∀ e : Effect,
        (⟨some (mkLightingController e), []⟩ : LightingManager).set_light_update_msec 0
          = .ok ⟨some ⟨e, 100, 100⟩, []⟩) ∧
    (∀ e : Effect,
        (⟨some (mkLightingController e), []⟩ : LightingManager).set_light_update_msec 50
          = .ok ⟨some ⟨e, 100, 50⟩, []⟩) := by
  refine ⟨?_, fun e => rfl, fun e => rfl, fun e => rfl, fun e => rfl⟩
  intro e devs calls m1 h
  refine runSetters_preserves_inv calls _ m1 ?_ h
  intro c hc
  simp only [Option.some.injEq] at hc
  rw [← hc]
  exact ⟨by norm_num [mkLightingController], by norm_num [mkLightingController],
    by norm_num [mkLightingController]⟩

/-- Claim C7 witness: the run clamping 1000 to 300, ignoring interval
0, storing interval 50 and clamping −5 to 0 ends in a state satisfying
the invariant. -/
theorem claim7_setter_invariant_witness :
    ctrlInv ⟨some ⟨.static 1 2 3, 0, 50⟩, []⟩ :=
  claim7_setter_invariant.1 (.static 1 2 3) []
    [.brightness 1000, .updateMsec 0, .updateMsec 50, .brightness (-5)]
    ⟨some ⟨.static 1 2 3, 0, 50⟩, []⟩ (by decide)

/-- Claim C8: the factory yields a controller exactly for the five
recognized kind identifiers and no result for any other; on the
keyword-only path a missing `type` key raises `KeyError` at call
time. -/
theorem claim8_factory_recognized_kinds :
    (∀ (t : String) (p : FactoryParams),
        (lighting_controller_factory t p).isSome = true ↔
          (t = "static" ∨ t = "alternating" ∨ t = "rgb_spectrum" ∨
            t = "spinning_rgb_spectrum" ∨ t = "temperature")) ∧
    (∀ (kwargs : List (String × String)) (p : FactoryParams),
        kwargs.lookup "type" = none →
          lighting_controller_factory_kwargs kwargs p = .error .keyError) := by
  constructor
  · intro t p
    have hmap : ∀ o : Option Effect,
        (Option.map mkLightingController o).isSome = o.isSome := by
      intro o; cases o <;> rfl
    rw [lighting_controller_factory, hmap]
    unfold makeEffect
    split_ifs with h1 h2 h3 h4 h5 <;> simp_all
  · intro kwargs p h
    simp [lighting_controller_factory_kwargs, h]

/-- Claim C8 witness: an unrecognized identifier yields no controller
and a keyword call without `type` raises `KeyError`. -/
theorem claim8_factory_recognized_kinds_witness :
    (lighting_controller_factory "glitter" {}).isSome = false ∧
    lighting_controller_factory_kwargs [("r", "255")] {} = .error .keyError := by
  constructor
  · have h := claim8_factory_recognized_kinds.1 "glitter" {}
    refine Bool.eq_false_iff.mpr fun hs => ?_
    rcases h.mp hs with h1 | h1 | h1 | h1 | h1 <;> exact absurd h1 (by decide)
  · exact claim8_factory_recognized_kinds.2 [("r", "255")] {} rfl

/-- Claim C10: on a manager constructed without an initial controller,
the brightness setter, the refresh-interval setter given a positive
argument, and one iteration of the loop body all dereference the absent
controller and raise `AttributeError` — none of them clamps, stores,
ignores or skips. -/
theorem claim10_absent_controller (b s : ℤ) (hueFn : ℚ → Triple)
    (sensors : String → Option (List ℚ)) (devs : List ℕ) :
    (LightingManager.mk none devs).set_brightness b = .error .attributeError ∧
    (0 < s →
      (LightingManager.mk none devs).set_light_update_msec s
        = .error .attributeError) ∧
    (LightingManager.mk none devs).loopRound hueFn sensors
      = .error .attributeError := by
  refine ⟨rfl, fun hs => ?_, rfl⟩
  simp [LightingManager.set_light_update_msec, hs]

/-- Claim C10 witness: the statement at brightness 7, interval 5, one
attached device. -/
theorem claim10_absent_controller_witness :
    (LightingManager.mk none [3]).set_brightness 7 = .error .attributeError ∧
    (LightingManager.mk none [3]).set_light_update_msec 5 = .error .attributeError ∧
    (LightingManager.mk none [3]).loopRound hue0 sensorsNone
      = .error .attributeError :=
  ⟨(claim10_absent_controller 7 5 hue0 sensorsNone [3]).1,
   (claim10_absent_controller 7 5 hue0 sensorsNone [3]).2.1 (by norm_num),
   (claim10_absent_controller 7 5 hue0 sensorsNone [3]).2.2⟩

end ThermaltakeRgb
